import Mathlib

set_option maxRecDepth 4000

/-!
Shallow embedding of the core of `src/services/bluetoothService.ts` (the
`BluetoothService` class) and of the UI send handler `handleSendMessage`
from `ChatInterface`, together with theorems settling the specification
claims about them.

Modelling conventions:
- The JavaScript `Map<string, ChatDevice>` `this.devices` is an insertion
  ordered association list `List (String × ChatDevice)`; `Map.set` updates
  in place when the key is present and appends otherwise; `Map.get` returns
  the first binding.
- The `Map<string, BleDevice>` `this.connections` stores values `{deviceId}`
  that carry no information beyond the key, so it is modelled by its key
  list `List String` (`Map.set` appends an absent key, `Map.delete` filters).
- `Date` values are epoch milliseconds, modelled as `Nat`; `Date.now()`
  is passed in as an explicit `now : Nat` argument.
- External collaborators are parameters: the outcome of each awaited
  transport call (`BleClient.connect`, `getServices`, `disconnect`,
  `write`) is a `Bool` argument (`true` = the promise resolved), and the
  CryptoJS port is a pair of function arguments `encrypt` / `decrypt`.
- `TextEncoder.encode` / `TextDecoder.decode` are modelled by an
  executable UTF-8 codec on byte lists (`utf8Encode` / `utf8Decode`),
  with the round trip proved below.
- A `try { ... } catch (error) { console.error(...) }` block is modelled
  by returning the state unchanged from the point the failing await
  occurs; logging has no observable effect in the model.
-/

/-- Device record, `ChatDevice` from the source. `lastSeen : Date` is
modelled as epoch milliseconds. -/
structure ChatDevice where
  id : String
  name : String
  rssi : Int
  connected : Bool
  lastSeen : Nat
  deriving Repr, DecidableEq

/-- Message record, `ChatMessage` from the source. -/
structure ChatMessage where
  id : String
  deviceId : String
  message : String
  timestamp : Nat
  sent : Bool
  encrypted : Bool
  deriving Repr, DecidableEq

/-- A discovery callback argument: `result.device.deviceId`,
`result.device.name` (possibly absent or empty) and `result.rssi`. -/
structure ScanResult where
  deviceId : String
  name : Option String
  rssi : Int
  deriving Repr, DecidableEq

/-- The mutable state of the `BluetoothService` singleton: the `devices`
registry map and the `connections` map (represented by its key list). -/
structure ServiceState where
  devices : List (String × ChatDevice)
  connections : List String
  deriving Repr, DecidableEq

/-- The fixed pre-shared key `this.encryptionKey`. -/
def encryptionKey : String := "MeshChat_Secret_Key_2024"

/-- JavaScript `Map.get`: first binding for the key, if any. -/
def mapGet (m : List (String × ChatDevice)) (k : String) : Option ChatDevice :=
  match m with
  | [] => none
  | (k', v) :: rest => if k' = k then some v else mapGet rest k

/-- JavaScript `Map.set`: replace the binding in place when the key is
present, append it otherwise. -/
def mapSet (m : List (String × ChatDevice)) (k : String) (v : ChatDevice) :
    List (String × ChatDevice) :=
  match m with
  | [] => [(k, v)]
  | (k', v') :: rest =>
    if k' = k then (k, v) :: rest else (k', v') :: mapSet rest k v

/-- JavaScript `Map.set` on the `connections` map, key part: append the
key when absent, keep the list otherwise. -/
def connInsert (l : List String) (k : String) : List String :=
  if k ∈ l then l else l ++ [k]

/-- JavaScript `Map.delete` on the `connections` map, key part. -/
def connDelete (l : List String) (k : String) : List String :=
  l.filter (fun x => x ≠ k)

/-- The `ChatDevice` object built by the discovery callback inside
`startScanning`: `connected` is always `false` and JavaScript
`result.device.name || fallback` treats the empty string as falsy. -/
def discoveredDevice (r : ScanResult) (now : Nat) : ChatDevice :=
  let fallback := "Device_" ++ r.deviceId.takeRight 4
  let name :=
    match r.name with
    | some n => if n = "" then fallback else n
    | none => fallback
  { id := r.deviceId, name := name, rssi := r.rssi, connected := false,
    lastSeen := now }

/-- The discovery callback passed to `BleClient.requestLEScan` inside
`startScanning`: builds the fresh `ChatDevice` and writes it into the
registry with `this.devices.set(device.id, device)`. -/
def onDeviceDiscovered (st : ServiceState) (r : ScanResult) (now : Nat) :
    ServiceState :=
  let device := discoveredDevice r now
  { st with devices := mapSet st.devices device.id device }

/-- `connectToDevice(deviceId)`. `connectOk` models whether
`BleClient.connect` resolves, `servicesOk` whether `BleClient.getServices`
resolves. A missing device throws, the `catch` turns every throw into
`return false` with no state change; on success the session is recorded
and the registry record is updated with `connected = true`. -/
def connectToDevice (connectOk servicesOk : Bool) (st : ServiceState)
    (deviceId : String) : Bool × ServiceState :=
  match mapGet st.devices deviceId with
  | none => (false, st)
  | some device =>
    if connectOk then
      if servicesOk then
        (true,
          { devices := mapSet st.devices deviceId { device with connected := true },
            connections := connInsert st.connections deviceId })
      else (false, st)
    else (false, st)

/-- `disconnectFromDevice(deviceId)`. `disconnectOk` models whether the
awaited `BleClient.disconnect` resolves. When it rejects, the `catch`
only logs, so the session deletion and the registry update are skipped
and the state is unchanged. -/
def disconnectFromDevice (disconnectOk : Bool) (st : ServiceState)
    (deviceId : String) : ServiceState :=
  if disconnectOk then
    let st1 : ServiceState :=
      { st with connections := connDelete st.connections deviceId }
    match mapGet st1.devices deviceId with
    | some device =>
      { st1 with
        devices := mapSet st1.devices deviceId { device with connected := false } }
    | none => st1
  else st

/-- `cleanup()`: iterate over the keys of the `connections` map and call
`disconnectFromDevice` on each (each key's transport outcome is given by
`ok`); then `stopScanning`, which touches no modelled state. The
surrounding `try`/`catch` only logs. -/
def cleanup (ok : String → Bool) (st : ServiceState) : ServiceState :=
  st.connections.foldl (fun s deviceId => disconnectFromDevice (ok deviceId) s deviceId) st

/-- `getConnectedDevices()`. -/
def getConnectedDevices (st : ServiceState) : List ChatDevice :=
  (st.devices.map Prod.snd).filter (fun device => device.connected)

/-- `getAllDevices()`. -/
def getAllDevices (st : ServiceState) : List ChatDevice :=
  st.devices.map Prod.snd

/-- UTF-8 encoding of one code point (`TextEncoder` operates on UTF-8). -/
def utf8EncodeChar (n : Nat) : List Nat :=
  if n < 0x80 then [n]
  else if n < 0x800 then [0xC0 + n / 0x40, 0x80 + n % 0x40]
  else if n < 0x10000 then
    [0xE0 + n / 0x1000, 0x80 + n / 0x40 % 0x40, 0x80 + n % 0x40]
  else
    [0xF0 + n / 0x40000, 0x80 + n / 0x1000 % 0x40, 0x80 + n / 0x40 % 0x40,
      0x80 + n % 0x40]

/-- `new TextEncoder().encode(s)`: the UTF-8 bytes of `s`. -/
def utf8Encode (s : String) : List Nat :=
  (s.data.map (fun c => utf8EncodeChar c.toNat)).flatten

/-- UTF-8 decoding of a single code point from the front of a byte
list: the code point and the remaining bytes, or `none` on a malformed
leading sequence. -/
def utf8DecodeOne : List Nat → Option (Nat × List Nat)
  | [] => none
  | b :: rest =>
    if b < 0x80 then some (b, rest)
    else if b < 0xC0 then none
    else if b < 0xE0 then
      match rest with
      | b1 :: rest2 =>
        if b1 / 0x40 = 2 then
          some ((b - 0xC0) * 0x40 + (b1 - 0x80), rest2)
        else none
      | [] => none
    else if b < 0xF0 then
      match rest with
      | b1 :: b2 :: rest3 =>
        if b1 / 0x40 = 2 ∧ b2 / 0x40 = 2 then
          some ((b - 0xE0) * 0x1000 + (b1 - 0x80) * 0x40 + (b2 - 0x80), rest3)
        else none
      | _ => none
    else if b < 0xF8 then
      match rest with
      | b1 :: b2 :: b3 :: rest4 =>
        if b1 / 0x40 = 2 ∧ b2 / 0x40 = 2 ∧ b3 / 0x40 = 2 then
          some ((b - 0xF0) * 0x40000 + (b1 - 0x80) * 0x1000 + (b2 - 0x80) * 0x40
            + (b3 - 0x80), rest4)
        else none
      | _ => none
    else none

/-- UTF-8 decoding of a whole byte list to code points, with a fuel
bound on the number of code points (any fuel at least the byte count is
enough, since every code point consumes at least one byte); `none` on
malformed input. -/
def utf8DecodeLoop : Nat → List Nat → Option (List Nat)
  | _, [] => some []
  | 0, _ :: _ => none
  | fuel + 1, b :: rest =>
    match utf8DecodeOne (b :: rest) with
    | none => none
    | some (cp, rest2) => (utf8DecodeLoop fuel rest2).map (fun cps => cp :: cps)

/-- `new TextDecoder().decode(bytes)` restricted to well-formed input:
decode the UTF-8 bytes back to a string, `none` on malformed input. -/
def utf8Decode (l : List Nat) : Option String :=
  (utf8DecodeLoop l.length l).map (fun cps => String.mk (cps.map Char.ofNat))

/-- Moderation verdict, the `{ flagged: boolean; reason?: string }`
object returned by `checkContentModeration`. -/
structure ModerationResult where
  flagged : Bool
  reason : Option String
  deriving Repr, DecidableEq

/-- The fixed reason string used for every flagged message. -/
def moderationReason : String :=
  "Message contains potentially sensitive information"

/-- JavaScript `\w` (ASCII word character). -/
def isWordChar (c : Char) : Bool := c.isAlpha || c.isDigit || c == '_'

/-- JavaScript `\s` restricted to the ASCII range plus NBSP. -/
def isJsSpace (c : Char) : Bool :=
  c == ' ' || c == '\t' || c == '\n' || c == '\r' || c == '\x0b' ||
    c == '\x0c' || c == '\xa0'

/-- A `\b` word boundary between an optional previous character and the
next character (`none` = string edge). -/
def boundary (prev next : Option Char) : Bool :=
  let pw := match prev with | some c => isWordChar c | none => false
  let nw := match next with | some c => isWordChar c | none => false
  pw != nw

/-- Trailing `\b` after a pattern that ends in a word character: the rest
of the input must start with a non-word character or be empty. -/
def endsAtWordBoundary (l : List Char) : Bool :=
  match l.head? with
  | some c => !isWordChar c
  | none => true

/-- Case-insensitive literal match (the `/i` flag): consume the literal,
return the remaining input. -/
def matchLit : List Char → List Char → Option (List Char)
  | [], l => some l
  | _ :: _, [] => none
  | p :: ps, c :: cs => if p.toLower == c.toLower then matchLit ps cs else none

/-- `\d{k}`: consume exactly `k` decimal digits. -/
def matchDigits : Nat → List Char → Option (List Char)
  | 0, l => some l
  | _ + 1, [] => none
  | k + 1, c :: cs => if c.isDigit then matchDigits k cs else none

/-- Greedy `[-\s]?`: consume one hyphen or space when present. -/
def matchOptSep : List Char → List Char
  | [] => []
  | c :: cs => if c == '-' || isJsSpace c then cs else c :: cs

/-- A single literal character of a pattern. -/
def matchChar (ch : Char) : List Char → Option (List Char)
  | [] => none
  | c :: cs => if c == ch then some cs else none

/-- The alternatives of the first sensitive pattern
`/\b(?:password|ssn|social security|credit card|bank account)\b/i`. -/
def sensitiveKeywords : List (List Char) :=
  ["password".data, "ssn".data, "social security".data, "credit card".data,
    "bank account".data]

/-- Match of the keyword pattern starting at the current position. -/
def keywordMatchAt (prev : Option Char) (l : List Char) : Bool :=
  boundary prev l.head? &&
    sensitiveKeywords.any (fun kw =>
      match matchLit kw l with
      | some rest => endsAtWordBoundary rest
      | none => false)

/-- Match of `/\b\d{4}[-\s]?\d{4}[-\s]?\d{4}[-\s]?\d{4}\b/` starting at
the current position.  The greedy option `[-\s]?` is deterministic here:
when the next character is a separator, skipping it would put a digit
test on the separator, which fails at once, so no backtracking arises. -/
def creditCardMatchAt (prev : Option Char) (l : List Char) : Bool :=
  boundary prev l.head? &&
    (match matchDigits 4 l with
     | none => false
     | some l1 =>
       match matchDigits 4 (matchOptSep l1) with
       | none => false
       | some l2 =>
         match matchDigits 4 (matchOptSep l2) with
         | none => false
         | some l3 =>
           match matchDigits 4 (matchOptSep l3) with
           | none => false
           | some l4 => endsAtWordBoundary l4)

/-- Match of `/\b\d{3}-\d{2}-\d{4}\b/` starting at the current position. -/
def ssnMatchAt (prev : Option Char) (l : List Char) : Bool :=
  boundary prev l.head? &&
    (match matchDigits 3 l with
     | none => false
     | some l1 =>
       match matchChar '-' l1 with
       | none => false
       | some l2 =>
         match matchDigits 2 l2 with
         | none => false
         | some l3 =>
           match matchChar '-' l3 with
           | none => false
           | some l4 =>
             match matchDigits 4 l4 with
             | none => false
             | some l5 => endsAtWordBoundary l5)

/-- `RegExp.test`: try the position matcher at every start position. -/
def scanFrom (test : Option Char → List Char → Bool) :
    Option Char → List Char → Bool
  | prev, [] => test prev []
  | prev, c :: cs => test prev (c :: cs) || scanFrom test (some c) cs

/-- `checkContentModeration(message)`: test the three fixed patterns in
order, return `flagged` with the generic reason on the first match. -/
def checkContentModeration (message : String) : ModerationResult :=
  if scanFrom keywordMatchAt none message.data then
    { flagged := true, reason := some moderationReason }
  else if scanFrom creditCardMatchAt none message.data then
    { flagged := true, reason := some moderationReason }
  else if scanFrom ssnMatchAt none message.data then
    { flagged := true, reason := some moderationReason }
  else { flagged := false, reason := none }

/-- Observable outcome of `sendMessage`: the returned boolean, the list
of plaintexts that went through `CryptoJS.AES.encrypt`, the byte
payloads handed to `BleClient.write`, and the (unchanged) service
state. -/
structure SendOutcome where
  ok : Bool
  encryptedPlaintexts : List String
  writes : List (List Nat)
  state : ServiceState
  deriving Repr, DecidableEq

/-- `sendMessage(deviceId, message)`. `encrypt` models
`CryptoJS.AES.encrypt(·, ·).toString()`, `writeOk` whether the awaited
`BleClient.write` resolves. A missing session throws, every throw is
caught and turned into `return false`. No moderation check appears on
this path. -/
def sendMessage (encrypt : String → String → String) (writeOk : Bool)
    (st : ServiceState) (deviceId message : String) : SendOutcome :=
  if deviceId ∈ st.connections then
    let encryptedMessage := encrypt message encryptionKey
    let messageData := utf8Encode encryptedMessage
    { ok := writeOk, encryptedPlaintexts := [message],
      writes := [messageData], state := st }
  else
    { ok := false, encryptedPlaintexts := [], writes := [], state := st }

/-- The notification callback installed by
`startMessageListener(deviceId, onMessage)`: decode the payload bytes to
the ciphertext string, decrypt (`decrypt` models
`CryptoJS.AES.decrypt(·, ·).toString(CryptoJS.enc.Utf8)`, with `none`
for the caught failure path), and build the received `ChatMessage` whose
`id` is `Date.now().toString()`. `none` means the notification was
dropped by the inner `catch`. -/
def onNotificationValue (decrypt : String → String → Option String)
    (deviceId : String) (now : Nat) (value : List Nat) : Option ChatMessage :=
  match utf8Decode value with
  | none => none
  | some encryptedMessage =>
    match decrypt encryptedMessage encryptionKey with
    | none => none
    | some decryptedMessage =>
      some
        { id := Nat.repr now, deviceId := deviceId,
          message := decryptedMessage, timestamp := now, sent := false,
          encrypted := true }

/-- JavaScript `String.prototype.trim()`: strip whitespace from both
ends (an executable model of the platform primitive). -/
def jsTrim (s : String) : String :=
  String.mk (((s.data.dropWhile isJsSpace).reverse.dropWhile isJsSpace).reverse)

/-- Observable outcome of the UI handler `handleSendMessage` from
`ChatInterface`: the moderation warning shown (if any), the sent
`ChatMessage` appended to the chat (if any), and the observables of the
inner `sendMessage` call. -/
structure UISendOutcome where
  moderationWarning : Option String
  sentMessage : Option ChatMessage
  encryptedPlaintexts : List String
  writes : List (List Nat)
  state : ServiceState
  deriving Repr, DecidableEq

/-- `handleSendMessage` from `ChatInterface`: an empty (trimmed) input is
ignored; otherwise the plaintext goes through `checkContentModeration`
first, and a flagged verdict sets the moderation warning (falling back to
`'Content flagged for review'`) and aborts before `sendMessage`; a clear
verdict calls `sendMessage`, and on success builds the sent
`ChatMessage` with `id = Date.now().toString()`. -/
def handleSendMessage (encrypt : String → String → String) (writeOk : Bool)
    (st : ServiceState) (deviceId newMessage : String) (now : Nat) :
    UISendOutcome :=
  if jsTrim newMessage = "" then
    { moderationWarning := none, sentMessage := none,
      encryptedPlaintexts := [], writes := [], state := st }
  else
    let moderation := checkContentModeration newMessage
    if moderation.flagged then
      { moderationWarning := some (moderation.reason.getD "Content flagged for review"),
        sentMessage := none, encryptedPlaintexts := [], writes := [],
        state := st }
    else
      let r := sendMessage encrypt writeOk st deviceId newMessage
      if r.ok then
        { moderationWarning := none,
          sentMessage := some
            { id := Nat.repr now, deviceId := deviceId,
              message := newMessage, timestamp := now, sent := true,
              encrypted := true },
          encryptedPlaintexts := r.encryptedPlaintexts, writes := r.writes,
          state := r.state }
      else
        { moderationWarning := none, sentMessage := none,
          encryptedPlaintexts := r.encryptedPlaintexts, writes := r.writes,
          state := r.state }

/-- The consistency invariant of the registry: at most one device record
per id, and each record's `connected` flag agrees with the existence of
a session (an entry in the `connections` map) for that id. -/
def RegistryInv (st : ServiceState) : Prop :=
  (st.devices.map Prod.fst).Nodup ∧
    ∀ p ∈ st.devices, ((p : String × ChatDevice).2.connected = true ↔ p.1 ∈ st.connections)

instance (st : ServiceState) : Decidable (RegistryInv st) := by
  unfold RegistryInv; infer_instance

/-! ### Association-list lemmas for the two maps -/

theorem mapGet_mapSet_self (m : List (String × ChatDevice)) (k : String)
    (v : ChatDevice) : mapGet (mapSet m k v) k = some v := by
  induction m with
  | nil => simp [mapSet, mapGet]
  | cons p rest ih =>
    obtain ⟨k', v'⟩ := p
    by_cases hk : k' = k
    · simp [mapSet, hk, mapGet]
    · simp [mapSet, hk, mapGet, ih]

theorem mapGet_mapSet_ne (m : List (String × ChatDevice)) (k k' : String)
    (v : ChatDevice) (h : k' ≠ k) :
    mapGet (mapSet m k v) k' = mapGet m k' := by
  induction m with
  | nil => simp [mapSet, mapGet, Ne.symm h]
  | cons p rest ih =>
    obtain ⟨k0, v0⟩ := p
    by_cases hk : k0 = k
    · subst hk
      simp [mapSet, mapGet, Ne.symm h]
    · simp only [mapSet, if_neg hk, mapGet]
      by_cases hk' : k0 = k'
      · simp [hk']
      · simp [hk', ih]

theorem mapGet_eq_none_iff (m : List (String × ChatDevice)) (k : String) :
    mapGet m k = none ↔ k ∉ m.map Prod.fst := by
  induction m with
  | nil => simp [mapGet]
  | cons p rest ih =>
    obtain ⟨k', v'⟩ := p
    by_cases hk : k' = k
    · simp [mapGet, hk]
    · simp [mapGet, hk, ih, Ne.symm hk]

theorem mem_keys_of_mem {m : List (String × ChatDevice)}
    {p : String × ChatDevice} (h : p ∈ m) : p.1 ∈ m.map Prod.fst :=
  List.mem_map.2 ⟨p, h, rfl⟩

theorem keys_mapSet (m : List (String × ChatDevice)) (k : String)
    (v : ChatDevice) :
    (mapSet m k v).map Prod.fst =
      if k ∈ m.map Prod.fst then m.map Prod.fst
      else m.map Prod.fst ++ [k] := by
  induction m with
  | nil => simp [mapSet]
  | cons q qs ihq =>
    obtain ⟨kq, vq⟩ := q
    by_cases hq : kq = k
    · simp [mapSet, hq]
    · simp only [mapSet, if_neg hq, List.map_cons, ihq, List.mem_cons]
      by_cases hmem : k ∈ qs.map Prod.fst
      · simp [hmem, hq, Ne.symm hq]
      · simp [hmem, hq, Ne.symm hq]

theorem keys_nodup_mapSet (m : List (String × ChatDevice)) (k : String)
    (v : ChatDevice) (h : (m.map Prod.fst).Nodup) :
    ((mapSet m k v).map Prod.fst).Nodup := by
  rw [keys_mapSet]
  by_cases hmem : k ∈ m.map Prod.fst
  · simpa [hmem] using h
  · simp only [if_neg hmem]
    exact List.Nodup.append h (List.nodup_singleton k)
      (by simpa [List.disjoint_singleton] using hmem)

theorem mem_mapSet (m : List (String × ChatDevice)) (k : String)
    (v : ChatDevice) (p : String × ChatDevice)
    (h : (m.map Prod.fst).Nodup) :
    p ∈ mapSet m k v ↔ p = (k, v) ∨ (p ∈ m ∧ p.1 ≠ k) := by
  induction m with
  | nil =>
    constructor
    · intro hp; simp [mapSet] at hp; exact Or.inl hp
    · rintro (rfl | ⟨hp, _⟩)
      · simp [mapSet]
      · simp at hp
  | cons q rest ih =>
    obtain ⟨k', v'⟩ := q
    simp only [List.map_cons, List.nodup_cons] at h
    by_cases hk : k' = k
    · subst hk
      simp only [mapSet, if_pos rfl]
      constructor
      · intro hp
        rcases List.mem_cons.1 hp with rfl | hp
        · exact Or.inl rfl
        · refine Or.inr ⟨List.mem_cons_of_mem _ hp, ?_⟩
          intro hpk
          exact h.1 (hpk ▸ mem_keys_of_mem hp)
      · rintro (rfl | ⟨hp, hpk⟩)
        · exact List.mem_cons_self _ _
        · rcases List.mem_cons.1 hp with rfl | hp
          · exact absurd rfl hpk
          · exact List.mem_cons_of_mem _ hp
    · simp only [mapSet, if_neg hk]
      constructor
      · intro hp
        rcases List.mem_cons.1 hp with rfl | hp
        · exact Or.inr ⟨List.mem_cons_self _ _, hk⟩
        · rcases (ih h.2).1 hp with rfl | ⟨hp2, hpk⟩
          · exact Or.inl rfl
          · exact Or.inr ⟨List.mem_cons_of_mem _ hp2, hpk⟩
      · rintro (rfl | ⟨hp, hpk⟩)
        · exact List.mem_cons_of_mem _ ((ih h.2).2 (Or.inl rfl))
        · rcases List.mem_cons.1 hp with rfl | hp
          · exact List.mem_cons_self _ _
          · exact List.mem_cons_of_mem _ ((ih h.2).2 (Or.inr ⟨hp, hpk⟩))

theorem mem_connInsert (l : List String) (k x : String) :
    x ∈ connInsert l k ↔ x ∈ l ∨ x = k := by
  unfold connInsert
  by_cases h : k ∈ l
  · simp only [if_pos h]
    constructor
    · exact Or.inl
    · rintro (hx | rfl)
      · exact hx
      · exact h
  · simp [if_neg h]

theorem mem_connDelete (l : List String) (k x : String) :
    x ∈ connDelete l k ↔ x ∈ l ∧ x ≠ k := by
  simp [connDelete, List.mem_filter]

theorem mapGet_none_forall (m : List (String × ChatDevice)) (k : String)
    (h : mapGet m k = none) : ∀ p ∈ m, (p : String × ChatDevice).1 ≠ k := by
  intro p hp
  intro hpk
  have := (mapGet_eq_none_iff m k).1 h
  exact this (hpk ▸ mem_keys_of_mem hp)

/-! ### Preservation of the registry invariant by each operation -/

theorem registryInv_connectToDevice (co so : Bool) (st : ServiceState)
    (deviceId : String) (h : RegistryInv st) :
    RegistryInv (connectToDevice co so st deviceId).2 := by
  obtain ⟨hnd, hiff⟩ := h
  cases hget : mapGet st.devices deviceId with
  | none =>
    have heq : (connectToDevice co so st deviceId).2 = st := by
      simp [connectToDevice, hget]
    rw [heq]; exact ⟨hnd, hiff⟩
  | some device =>
    cases co with
    | false =>
      have heq : (connectToDevice false so st deviceId).2 = st := by
        simp [connectToDevice, hget]
      rw [heq]; exact ⟨hnd, hiff⟩
    | true =>
      cases so with
      | false =>
        have heq : (connectToDevice true false st deviceId).2 = st := by
          simp [connectToDevice, hget]
        rw [heq]; exact ⟨hnd, hiff⟩
      | true =>
        have heq : (connectToDevice true true st deviceId).2 =
            { devices := mapSet st.devices deviceId { device with connected := true },
              connections := connInsert st.connections deviceId } := by
          simp [connectToDevice, hget]
        rw [heq]
        refine ⟨keys_nodup_mapSet _ _ _ hnd, ?_⟩
        intro p hp
        rcases (mem_mapSet _ _ _ _ hnd).1 hp with rfl | ⟨hpm, hpk⟩
        · simp [mem_connInsert]
        · rw [mem_connInsert]
          constructor
          · intro hc
            exact Or.inl ((hiff p hpm).1 hc)
          · rintro (hc | rfl)
            · exact (hiff p hpm).2 hc
            · exact absurd rfl hpk

theorem registryInv_disconnectFromDevice (dok : Bool) (st : ServiceState)
    (deviceId : String) (h : RegistryInv st) :
    RegistryInv (disconnectFromDevice dok st deviceId) := by
  obtain ⟨hnd, hiff⟩ := h
  cases dok with
  | false => exact ⟨hnd, hiff⟩
  | true =>
    cases hget : mapGet st.devices deviceId with
    | none =>
      have heq : disconnectFromDevice true st deviceId =
          { st with connections := connDelete st.connections deviceId } := by
        simp [disconnectFromDevice, hget]
      rw [heq]
      refine ⟨hnd, ?_⟩
      intro p hp
      rw [mem_connDelete]
      have hne := mapGet_none_forall st.devices deviceId hget p hp
      constructor
      · intro hc
        exact ⟨(hiff p hp).1 hc, hne⟩
      · rintro ⟨hc, _⟩
        exact (hiff p hp).2 hc
    | some device =>
      have heq : disconnectFromDevice true st deviceId =
          { devices := mapSet st.devices deviceId { device with connected := false },
            connections := connDelete st.connections deviceId } := by
        simp [disconnectFromDevice, hget]
      rw [heq]
      refine ⟨keys_nodup_mapSet _ _ _ hnd, ?_⟩
      intro p hp
      rcases (mem_mapSet _ _ _ _ hnd).1 hp with rfl | ⟨hpm, hpk⟩
      · simp [mem_connDelete]
      · rw [mem_connDelete]
        constructor
        · intro hc
          exact ⟨(hiff p hpm).1 hc, hpk⟩
        · rintro ⟨hc, _⟩
          exact (hiff p hpm).2 hc

theorem registryInv_cleanup (ok : String → Bool) (st : ServiceState)
    (h : RegistryInv st) : RegistryInv (cleanup ok st) := by
  unfold cleanup
  generalize st.connections = l
  induction l generalizing st with
  | nil => exact h
  | cons d ds ih =>
    exact ih _ (registryInv_disconnectFromDevice (ok d) st d h)

theorem keys_nodup_onDeviceDiscovered (st : ServiceState) (r : ScanResult)
    (now : Nat) (h : (st.devices.map Prod.fst).Nodup) :
    ((onDeviceDiscovered st r now).devices.map Prod.fst).Nodup := by
  unfold onDeviceDiscovered
  exact keys_nodup_mapSet _ _ _ h

theorem registryInv_onDeviceDiscovered (st : ServiceState) (r : ScanResult)
    (now : Nat) (h : RegistryInv st) (hc : r.deviceId ∉ st.connections) :
    RegistryInv (onDeviceDiscovered st r now) := by
  obtain ⟨hnd, hiff⟩ := h
  unfold onDeviceDiscovered
  refine ⟨keys_nodup_mapSet _ _ _ hnd, ?_⟩
  intro p hp
  rcases (mem_mapSet _ _ _ _ hnd).1 hp with rfl | ⟨hpm, hpk⟩
  · simpa [discoveredDevice] using hc
  · exact hiff p hpm

theorem disconnect_connections_eq (s : ServiceState) (d : String) :
    (disconnectFromDevice true s d).connections = connDelete s.connections d := by
  cases hget : mapGet s.devices d <;> simp [disconnectFromDevice, hget]

theorem disconnect_false_eq (s : ServiceState) (d : String) :
    disconnectFromDevice false s d = s := by
  simp [disconnectFromDevice]

theorem cleanup_clears (ok : String → Bool) :
    ∀ (l : List String) (s : ServiceState),
      (∀ x, ok x = true → x ∈ s.connections → x ∈ l) →
      ∀ x, ok x = true →
        x ∉ (l.foldl (fun s d => disconnectFromDevice (ok d) s d) s).connections := by
  intro l
  induction l with
  | nil =>
    intro s hsub x hx hmem
    exact absurd (hsub x hx (by simpa using hmem)) (List.not_mem_nil x)
  | cons d ds ih =>
    intro s hsub x hx
    refine ih (disconnectFromDevice (ok d) s d) ?_ x hx
    intro y hy hymem
    cases hok : ok d with
    | false =>
      rw [hok, disconnect_false_eq] at hymem
      rcases List.mem_cons.1 (hsub y hy hymem) with rfl | hin
      · rw [hok] at hy; exact absurd hy (by simp)
      · exact hin
    | true =>
      rw [hok, disconnect_connections_eq, mem_connDelete] at hymem
      rcases List.mem_cons.1 (hsub y hy hymem.1) with rfl | hin
      · exact absurd rfl hymem.2
      · exact hin

/-! ### Claim C1 -/

/-- C1 (amended): starting from a state satisfying the registry
invariant, `connectToDevice`, `disconnectFromDevice` and `cleanup`
preserve it — each device record has `connected = true` iff a session
exists for its id, and there is at most one record per id; a discovery
callback always keeps the registry free of duplicate ids, but it
preserves the `connected`/session consistency only when no session
exists for the discovered id (it unconditionally overwrites the record
with `connected = false`). -/
theorem registry_consistency_preserved (co so dok : Bool) (ok : String → Bool)
    (st : ServiceState) (deviceId : String) (r : ScanResult) (now : Nat)
    (h : RegistryInv st) :
    RegistryInv (connectToDevice co so st deviceId).2 ∧
    RegistryInv (disconnectFromDevice dok st deviceId) ∧
    RegistryInv (cleanup ok st) ∧
    ((onDeviceDiscovered st r now).devices.map Prod.fst).Nodup ∧
    (r.deviceId ∉ st.connections → RegistryInv (onDeviceDiscovered st r now)) :=
  ⟨registryInv_connectToDevice co so st deviceId h,
   registryInv_disconnectFromDevice dok st deviceId h,
   registryInv_cleanup ok st h,
   keys_nodup_onDeviceDiscovered st r now h.1,
   fun hc => registryInv_onDeviceDiscovered st r now h hc⟩

/-- A discovery event for device `AA`. -/
def exScanA : ScanResult := { deviceId := "AA", name := some "Peer", rssi := -40 }

/-- Discover `AA` in the empty state. -/
def exState1 : ServiceState :=
  onDeviceDiscovered { devices := [], connections := [] } exScanA 1

/-- Then connect to `AA` successfully. -/
def exState2 : ServiceState := (connectToDevice true true exState1 "AA").2

/-- Then process a second discovery event for `AA` while it is connected. -/
def exState3 : ServiceState := onDeviceDiscovered exState2 exScanA 2

/-- C1 counterexample: the invariant claimed for every core operation
fails after a discovery callback for a connected device. The state
`exState3` is reachable (discover `AA`, connect to it, then a scan hears
it again); after the second discovery event a session for `AA` still
exists but its registry record has `connected = false`. -/
theorem registry_consistency_counterexample :
    RegistryInv exState2 ∧ ¬ RegistryInv exState3 ∧
    "AA" ∈ exState3.connections ∧
    mapGet exState3.devices "AA" =
      some { id := "AA", name := "Peer", rssi := -40, connected := false,
             lastSeen := 2 } := by decide

/-- Witness for C1 (amended) at a concrete reachable state. -/
theorem registry_consistency_preserved_witness :
    RegistryInv (connectToDevice true true exState1 "AA").2 ∧
    RegistryInv (onDeviceDiscovered exState1 exScanA 2) :=
  ⟨(registry_consistency_preserved true true true (fun _ => true) exState1
      "AA" exScanA 2 (by decide)).1,
   (registry_consistency_preserved true true true (fun _ => true) exState1
      "AA" exScanA 2 (by decide)).2.2.2.2 (by decide)⟩

/-! ### Claim C5 -/

/-- C5 (amended): `cleanup` never raises and walks every session;
starting from a consistent state, every device whose transport
disconnect succeeds ends with no session and `connected = false`
(even when other disconnects in the same sweep fail), and the registry
invariant still holds afterwards — but a device whose own transport
disconnect fails keeps its session and its `connected` flag (shown by
the counterexample), so the claim that both of two connected devices
always end disconnected does not hold. -/
theorem cleanup_best_effort (ok : String → Bool) (st : ServiceState)
    (h : RegistryInv st) :
    RegistryInv (cleanup ok st) ∧
    (∀ x, ok x = true → x ∉ (cleanup ok st).connections) ∧
    (∀ p ∈ (cleanup ok st).devices,
      ok (p : String × ChatDevice).1 = true → p.2.connected = false) := by
  have hinv := registryInv_cleanup ok st h
  have hclear : ∀ x, ok x = true → x ∉ (cleanup ok st).connections :=
    fun x hx => cleanup_clears ok st.connections st (fun _ _ hm => hm) x hx
  refine ⟨hinv, hclear, ?_⟩
  intro p hp hok
  cases hcc : p.2.connected with
  | false => rfl
  | true => exact ((hclear p.1 hok) ((hinv.2 p hp).1 hcc)).elim

/-- A state with two connected devices `a` and `b`. -/
def exTwoConnState : ServiceState :=
  { devices :=
      [("a", { id := "a", name := "A", rssi := -40, connected := true, lastSeen := 1 }),
       ("b", { id := "b", name := "B", rssi := -50, connected := true, lastSeen := 1 })],
    connections := ["a", "b"] }

/-- `cleanup` on that state when the transport disconnect fails for `a`
and succeeds for `b`. -/
def exCleanupFailFirst : ServiceState :=
  cleanup (fun d => d == "b") exTwoConnState

/-- C5 counterexample: with two connected devices and one failing
transport disconnect, `cleanup` does not reach the claimed final state —
the failing device `a` keeps its session and its record stays
`connected = true` (only `b` is cleared). -/
theorem cleanup_counterexample :
    RegistryInv exTwoConnState ∧
    "a" ∈ exCleanupFailFirst.connections ∧
    mapGet exCleanupFailFirst.devices "a" =
      some { id := "a", name := "A", rssi := -40, connected := true, lastSeen := 1 } ∧
    "b" ∉ exCleanupFailFirst.connections ∧
    mapGet exCleanupFailFirst.devices "b" =
      some { id := "b", name := "B", rssi := -50, connected := false, lastSeen := 1 } := by
  decide

/-- Witness for C5 (amended) at a concrete state. -/
theorem cleanup_best_effort_witness :
    RegistryInv (cleanup (fun _ => true) exTwoConnState) ∧
    "a" ∉ (cleanup (fun _ => true) exTwoConnState).connections :=
  ⟨(cleanup_best_effort (fun _ => true) exTwoConnState (by decide)).1,
   (cleanup_best_effort (fun _ => true) exTwoConnState (by decide)).2.1 "a" rfl⟩

/-! ### Claim C2 -/

/-- C2 (amended): processing a subsequent discovery event for an id
already in the registry replaces its record with a freshly built one
whose `name`, `rssi` and `lastSeen` come from the event but whose
`connected` flag is unconditionally `false` — so `connected` is
preserved only when it was already `false`; all other records and the
`connections` map are untouched. -/
theorem discovery_updates_record (st : ServiceState) (r : ScanResult)
    (now : Nat) (dev : ChatDevice)
    (h : mapGet st.devices r.deviceId = some dev) :
    mapGet (onDeviceDiscovered st r now).devices r.deviceId =
      some (discoveredDevice r now) ∧
    (discoveredDevice r now).rssi = r.rssi ∧
    (discoveredDevice r now).lastSeen = now ∧
    (discoveredDevice r now).connected = false ∧
    (∀ k, k ≠ r.deviceId →
      mapGet (onDeviceDiscovered st r now).devices k = mapGet st.devices k) ∧
    (onDeviceDiscovered st r now).connections = st.connections := by
  have hid : (discoveredDevice r now).id = r.deviceId := rfl
  refine ⟨?_, rfl, rfl, rfl, ?_, rfl⟩
  · show mapGet (mapSet st.devices (discoveredDevice r now).id
      (discoveredDevice r now)) r.deviceId = some (discoveredDevice r now)
    rw [hid]
    exact mapGet_mapSet_self _ _ _
  · intro k hk
    show mapGet (mapSet st.devices (discoveredDevice r now).id
      (discoveredDevice r now)) k = mapGet st.devices k
    rw [hid]
    exact mapGet_mapSet_ne _ _ _ _ hk

/-- A state holding a connected device `AA` with its session. -/
def exConnectedDevState : ServiceState :=
  { devices :=
      [("AA", { id := "AA", name := "Peer", rssi := -40, connected := true,
                lastSeen := 1 })],
    connections := ["AA"] }

/-- C2 counterexample: a discovery event for a device whose record has
`connected = true` does not leave the flag unchanged — the record comes
out with `connected = false`. -/
theorem discovery_resets_connected_counterexample :
    mapGet exConnectedDevState.devices "AA" =
      some { id := "AA", name := "Peer", rssi := -40, connected := true,
             lastSeen := 1 } ∧
    mapGet (onDeviceDiscovered exConnectedDevState exScanA 2).devices "AA" =
      some { id := "AA", name := "Peer", rssi := -40, connected := false,
             lastSeen := 2 } := by decide

/-- Witness for C2 (amended) at a concrete state. -/
theorem discovery_updates_record_witness :
    mapGet (onDeviceDiscovered exConnectedDevState exScanA 2).devices "AA" =
      some (discoveredDevice exScanA 2) ∧
    (discoveredDevice exScanA 2).connected = false :=
  ⟨(discovery_updates_record exConnectedDevState exScanA 2
      { id := "AA", name := "Peer", rssi := -40, connected := true, lastSeen := 1 }
      (by decide)).1,
   (discovery_updates_record exConnectedDevState exScanA 2
      { id := "AA", name := "Peer", rssi := -40, connected := true, lastSeen := 1 }
      (by decide)).2.2.2.1⟩

/-! ### Claim C4 -/

theorem disconnect_true_eq_of_get_some (st : ServiceState) (deviceId : String)
    (dev : ChatDevice) (h : mapGet st.devices deviceId = some dev) :
    disconnectFromDevice true st deviceId =
      { devices := mapSet st.devices deviceId { dev with connected := false },
        connections := connDelete st.connections deviceId } := by
  simp [disconnectFromDevice, h]

/-- C4 (amended): `disconnectFromDevice` never throws; when the
transport disconnect resolves, the session is destroyed and the
registry record is set to `connected = false` (the locally-disconnected
state is reached); but when the transport disconnect rejects, the
failure is only logged and the whole local state — session included —
is left exactly as it was, so the locally-disconnected state is NOT
reached in that case (shown by the counterexample). -/
theorem disconnect_local_state (st : ServiceState) (deviceId : String)
    (dev : ChatDevice) (h : mapGet st.devices deviceId = some dev) :
    deviceId ∉ (disconnectFromDevice true st deviceId).connections ∧
    mapGet (disconnectFromDevice true st deviceId).devices deviceId =
      some { dev with connected := false } ∧
    disconnectFromDevice false st deviceId = st := by
  rw [disconnect_true_eq_of_get_some st deviceId dev h]
  refine ⟨?_, mapGet_mapSet_self _ _ _, disconnect_false_eq st deviceId⟩
  simp [mem_connDelete]

/-- A state holding one connected device `d`. -/
def exDisconnectFailState : ServiceState :=
  { devices :=
      [("d", { id := "d", name := "D", rssi := -40, connected := true,
               lastSeen := 1 })],
    connections := ["d"] }

/-- C4 counterexample: when the transport disconnect call fails, the
session survives and the record keeps `connected = true` — the
locally-disconnected state is not reached, contradicting the claim that
it always is. -/
theorem disconnect_failure_counterexample :
    disconnectFromDevice false exDisconnectFailState "d" = exDisconnectFailState ∧
    "d" ∈ (disconnectFromDevice false exDisconnectFailState "d").connections ∧
    mapGet (disconnectFromDevice false exDisconnectFailState "d").devices "d" =
      some { id := "d", name := "D", rssi := -40, connected := true,
             lastSeen := 1 } := by decide

/-- Witness for C4 (amended) at a concrete state. -/
theorem disconnect_local_state_witness :
    "d" ∉ (disconnectFromDevice true exDisconnectFailState "d").connections ∧
    mapGet (disconnectFromDevice true exDisconnectFailState "d").devices "d" =
      some { id := "d", name := "D", rssi := -40, connected := false,
             lastSeen := 1 } :=
  ⟨(disconnect_local_state exDisconnectFailState "d"
      { id := "d", name := "D", rssi := -40, connected := true, lastSeen := 1 }
      (by decide)).1,
   (disconnect_local_state exDisconnectFailState "d"
      { id := "d", name := "D", rssi := -40, connected := true, lastSeen := 1 }
      (by decide)).2.1⟩

/-! ### Claim C7 -/

/-- C7: `connectToDevice` on an unknown id — and more generally on any
transport connect or service-discovery failure — returns `false`
(never throws) and leaves the registry and the sessions exactly
unchanged: the whole result state is the input state. -/
theorem connect_failure_no_state_change (co so : Bool) (st : ServiceState)
    (deviceId : String)
    (h : mapGet st.devices deviceId = none ∨ co = false ∨ so = false) :
    connectToDevice co so st deviceId = (false, st) := by
  rcases h with hget | rfl | rfl
  · simp [connectToDevice, hget]
  · cases hget : mapGet st.devices deviceId <;> simp [connectToDevice, hget]
  · cases hget : mapGet st.devices deviceId <;> cases co <;>
      simp [connectToDevice, hget]

/-- Witness for C7: connecting to an id absent from an empty registry. -/
theorem connect_failure_no_state_change_witness :
    connectToDevice true true { devices := [], connections := [] } "zz" =
      (false, { devices := [], connections := [] }) :=
  connect_failure_no_state_change true true _ "zz" (Or.inl (by decide))

/-! ### Claim C10 -/

/-- C10: `sendMessage` never mutates the device registry or the
connections map — the service state embedded in its outcome is exactly
the input state, whether the send succeeds or fails. -/
theorem sendMessage_no_state_mutation (encrypt : String → String → String)
    (writeOk : Bool) (st : ServiceState) (deviceId message : String) :
    (sendMessage encrypt writeOk st deviceId message).state = st := by
  unfold sendMessage
  by_cases h : deviceId ∈ st.connections <;> simp [h]

/-! ### Claim C8 -/

theorem checkContentModeration_flagged_reason (m : String)
    (h : (checkContentModeration m).flagged = true) :
    (checkContentModeration m).reason = some moderationReason := by
  unfold checkContentModeration at *
  by_cases h1 : scanFrom keywordMatchAt none m.data
  · simp [h1]
  · by_cases h2 : scanFrom creditCardMatchAt none m.data
    · simp [h1, h2]
    · by_cases h3 : scanFrom ssnMatchAt none m.data
      · simp [h1, h2, h3]
      · simp [h1, h2, h3] at h

/-- C8: the moderation gate is a pure function of its input text that
tests the three fixed sensitive-data patterns (keyword list,
credit-card-like 16-digit grouping, SSN-like grouping) and returns
`flagged` with the one generic reason string exactly when some pattern
matches (the patterns are tried in order, every flagged result carrying
the same reason); in particular the SSN sentence and the grouped
16-digit number are flagged and a harmless greeting is not. -/
theorem checkContentModeration_gate :
    (∀ m : String,
      ((checkContentModeration m).flagged = true ↔
        (scanFrom keywordMatchAt none m.data ||
          scanFrom creditCardMatchAt none m.data ||
          scanFrom ssnMatchAt none m.data) = true) ∧
      (checkContentModeration m).reason =
        (if (checkContentModeration m).flagged then some moderationReason
         else none)) ∧
    checkContentModeration "my ssn is 123-45-6789" =
      { flagged := true, reason := some moderationReason } ∧
    checkContentModeration "4111 1111 1111 1111" =
      { flagged := true, reason := some moderationReason } ∧
    checkContentModeration "hello there" =
      { flagged := false, reason := none } := by
  refine ⟨fun m => ⟨?_, ?_⟩, by decide, by decide, by decide⟩ <;>
    · unfold checkContentModeration
      by_cases h1 : scanFrom keywordMatchAt none m.data <;>
        by_cases h2 : scanFrom creditCardMatchAt none m.data <;>
          by_cases h3 : scanFrom ssnMatchAt none m.data <;>
            simp [h1, h2, h3]

/-! ### Claim C3 -/

/-- A state holding one connected device `B` with its session. -/
def exSendState : ServiceState :=
  { devices :=
      [("B", { id := "B", name := "PeerB", rssi := -40, connected := true,
               lastSeen := 1 })],
    connections := ["B"] }

/-- C3 counterexample: the core send path `sendMessage` runs no
moderation at all — for a plaintext the gate flags and a live session,
it still encrypts the plaintext and performs the transport write,
returning `true`. -/
theorem sendMessage_skips_moderation_counterexample :
    (checkContentModeration "my ssn is 123-45-6789").flagged = true ∧
    sendMessage (fun m _ => m) true exSendState "B" "my ssn is 123-45-6789" =
      { ok := true, encryptedPlaintexts := ["my ssn is 123-45-6789"],
        writes := [utf8Encode "my ssn is 123-45-6789"],
        state := exSendState } := by decide

/-- C3 (amended): the moderation gate runs in the UI send handler
`handleSendMessage` (not inside `sendMessage`): when the gate flags the
plaintext, the handler aborts before ever calling `sendMessage` — the
flag reason is surfaced as the moderation warning, no message is
recorded as sent, nothing is encrypted and no transport write happens,
and the service state is untouched. -/
theorem ui_send_moderation_gate (encrypt : String → String → String)
    (writeOk : Bool) (st : ServiceState) (deviceId msg : String) (now : Nat)
    (hflag : (checkContentModeration msg).flagged = true)
    (htrim : ¬ jsTrim msg = "") :
    handleSendMessage encrypt writeOk st deviceId msg now =
      { moderationWarning := some moderationReason, sentMessage := none,
        encryptedPlaintexts := [], writes := [], state := st } := by
  unfold handleSendMessage
  rw [if_neg htrim]
  simp [hflag, checkContentModeration_flagged_reason msg hflag]

/-- Witness for C3 (amended) at a concrete flagged plaintext. -/
theorem ui_send_moderation_gate_witness :
    handleSendMessage (fun m _ => m) true exSendState "B"
        "my ssn is 123-45-6789" 5 =
      { moderationWarning := some moderationReason, sentMessage := none,
        encryptedPlaintexts := [], writes := [], state := exSendState } :=
  ui_send_moderation_gate (fun m _ => m) true exSendState "B"
    "my ssn is 123-45-6789" 5 (by decide) (by decide)

/-! ### UTF-8 round trip -/

theorem char_toNat_lt (c : Char) : c.toNat < 0x110000 := by
  have h := c.valid
  unfold UInt32.isValidChar Nat.isValidChar at h
  show c.val.toNat < 0x110000
  omega

theorem utf8EncodeChar_ne_nil (n : Nat) : utf8EncodeChar n ≠ [] := by
  unfold utf8EncodeChar
  by_cases h1 : n < 0x80
  · simp [h1]
  · by_cases h2 : n < 0x800
    · simp [h1, h2]
    · by_cases h3 : n < 0x10000 <;> simp [h1, h2, h3]

theorem utf8DecodeOne_encodeChar (n : Nat) (hn : n < 0x110000) (l : List Nat) :
    utf8DecodeOne (utf8EncodeChar n ++ l) = some (n, l) := by
  unfold utf8EncodeChar
  by_cases h1 : n < 0x80
  · rw [if_pos h1, List.cons_append, List.nil_append]
    simp only [utf8DecodeOne]
    rw [if_pos h1]
  · rw [if_neg h1]
    by_cases h2 : n < 0x800
    · rw [if_pos h2, List.cons_append, List.cons_append, List.nil_append]
      simp only [utf8DecodeOne]
      rw [if_neg (by omega), if_neg (by omega), if_pos (by omega),
        if_pos (show (0x80 + n % 0x40) / 0x40 = 2 by omega)]
      congr 2
      omega
    · rw [if_neg h2]
      by_cases h3 : n < 0x10000
      · rw [if_pos h3, List.cons_append, List.cons_append, List.cons_append,
          List.nil_append]
        simp only [utf8DecodeOne]
        rw [if_neg (by omega), if_neg (by omega), if_neg (by omega),
          if_pos (by omega),
          if_pos (show (0x80 + n / 0x40 % 0x40) / 0x40 = 2 ∧
            (0x80 + n % 0x40) / 0x40 = 2 from ⟨by omega, by omega⟩)]
        congr 2
        have hd : n / 0x40 / 0x40 = n / 0x1000 := by
          rw [Nat.div_div_eq_div_mul]
        omega
      · rw [if_neg h3, List.cons_append, List.cons_append, List.cons_append,
          List.cons_append, List.nil_append]
        simp only [utf8DecodeOne]
        rw [if_neg (by omega), if_neg (by omega), if_neg (by omega),
          if_neg (by omega), if_pos (by omega),
          if_pos (show (0x80 + n / 0x1000 % 0x40) / 0x40 = 2 ∧
            (0x80 + n / 0x40 % 0x40) / 0x40 = 2 ∧
            (0x80 + n % 0x40) / 0x40 = 2 from ⟨by omega, by omega, by omega⟩)]
        congr 2
        have hd1 : n / 0x40 / 0x40 = n / 0x1000 := by
          rw [Nat.div_div_eq_div_mul]
        have hd2 : n / 0x1000 / 0x40 = n / 0x40000 := by
          rw [Nat.div_div_eq_div_mul]
        omega

theorem utf8DecodeLoop_encode (cs : List Nat) :
    ∀ fuel : Nat, (∀ n ∈ cs, n < 0x110000) → cs.length ≤ fuel →
      utf8DecodeLoop fuel ((cs.map utf8EncodeChar).flatten) = some cs := by
  induction cs with
  | nil =>
    intro fuel _ _
    simp [utf8DecodeLoop]
  | cons c cs ih =>
    intro fuel hval hlen
    cases fuel with
    | zero => simp at hlen
    | succ f =>
      obtain ⟨b, bs, hE⟩ := List.exists_cons_of_ne_nil (utf8EncodeChar_ne_nil c)
      have hflat : ((c :: cs).map utf8EncodeChar).flatten =
          b :: (bs ++ (cs.map utf8EncodeChar).flatten) := by
        simp [hE]
      rw [hflat]
      have hone : utf8DecodeOne (b :: (bs ++ (cs.map utf8EncodeChar).flatten)) =
          some (c, (cs.map utf8EncodeChar).flatten) := by
        have h := utf8DecodeOne_encodeChar c (hval c (by simp))
          ((cs.map utf8EncodeChar).flatten)
        rwa [hE, List.cons_append] at h
      rw [utf8DecodeLoop, hone]
      show (utf8DecodeLoop f ((cs.map utf8EncodeChar).flatten)).map
        (fun cps => c :: cps) = some (c :: cs)
      rw [ih f (fun n hn => hval n (by simp [hn])) (by simpa using hlen)]
      rfl

theorem length_le_length_flatten_encode (cs : List Nat) :
    cs.length ≤ ((cs.map utf8EncodeChar).flatten).length := by
  induction cs with
  | nil => simp
  | cons c cs ih =>
    have hpos : 1 ≤ (utf8EncodeChar c).length :=
      List.length_pos.2 (utf8EncodeChar_ne_nil c)
    simp only [List.map_cons, List.flatten_cons, List.length_append,
      List.length_cons]
    omega

theorem utf8Decode_utf8Encode (s : String) :
    utf8Decode (utf8Encode s) = some s := by
  unfold utf8Decode utf8Encode
  have hcs : s.data.map (fun c => utf8EncodeChar c.toNat) =
      (s.data.map Char.toNat).map utf8EncodeChar := by
    rw [List.map_map]
    rfl
  rw [hcs]
  rw [utf8DecodeLoop_encode (s.data.map Char.toNat) _
    (by
      intro n hn
      obtain ⟨c, _, rfl⟩ := List.mem_map.1 hn
      exact char_toNat_lt c)
    (length_le_length_flatten_encode (s.data.map Char.toNat))]
  have hmap : (s.data.map Char.toNat).map Char.ofNat = s.data := by
    rw [List.map_map]
    have h : ∀ c ∈ s.data, (Char.ofNat ∘ Char.toNat) c = id c := by
      intro c _
      exact Char.ofNat_toNat c
    rw [List.map_congr_left h, List.map_id]
  show some (String.mk ((s.data.map Char.toNat).map Char.ofNat)) = some s
  rw [hmap]

/-! ### Claim C6 -/

/-- C6: for every connected device and plaintext, the
encrypt-then-encode send path produces exactly one byte payload, and
delivering that exact payload to the notification handler installed by
`startMessageListener` yields a received `ChatMessage` whose content is
the original plaintext, with `sent = false` and `encrypted = true` —
under the Crypto Port round-trip hypothesis
`decrypt (encrypt m k) k = m` for the shared key. -/
theorem send_receive_roundtrip (encrypt : String → String → String)
    (decrypt : String → String → Option String) (st : ServiceState)
    (deviceId m : String) (now : Nat)
    (hconn : deviceId ∈ st.connections)
    (hround : decrypt (encrypt m encryptionKey) encryptionKey = some m) :
    sendMessage encrypt true st deviceId m =
      { ok := true, encryptedPlaintexts := [m],
        writes := [utf8Encode (encrypt m encryptionKey)], state := st } ∧
    onNotificationValue decrypt deviceId now
        (utf8Encode (encrypt m encryptionKey)) =
      some { id := Nat.repr now, deviceId := deviceId, message := m,
             timestamp := now, sent := false, encrypted := true } := by
  constructor
  · unfold sendMessage
    rw [if_pos hconn]
  · simp only [onNotificationValue, utf8Decode_utf8Encode, hround]

/-- Witness for C6 at a concrete connected device, plaintext `"hi"`,
and a crypto port satisfying the round-trip law. -/
theorem send_receive_roundtrip_witness :
    sendMessage (fun m _ => m) true exSendState "B" "hi" =
      { ok := true, encryptedPlaintexts := ["hi"],
        writes := [utf8Encode "hi"], state := exSendState } ∧
    onNotificationValue (fun c _ => some c) "B" 7 (utf8Encode "hi") =
      some { id := Nat.repr 7, deviceId := "B", message := "hi",
             timestamp := 7, sent := false, encrypted := true } :=
  send_receive_roundtrip (fun m _ => m) (fun c _ => some c) exSendState "B"
    "hi" 7 (by decide) rfl

/-! ### Decimal representation: `Date.now().toString()` is injective in
the timestamp -/

/-- Parse a decimal digit string back to a number. -/
def parseDec (l : List Char) : Nat :=
  l.foldl (fun acc c => acc * 10 + (c.toNat - 48)) 0

theorem digitChar_toNat (d : Nat) (h : d < 10) :
    (Nat.digitChar d).toNat = 48 + d := by
  interval_cases d <;> rfl

theorem toDigitsCore_append (n : Nat) :
    ∀ (f : Nat) (ds : List Char), n < f →
      Nat.toDigitsCore 10 f n ds = Nat.toDigitsCore 10 (n + 1) n [] ++ ds := by
  induction n using Nat.strong_induction_on with
  | _ n ih =>
    intro f ds hf
    cases f with
    | zero => omega
    | succ f2 =>
      by_cases h0 : n / 10 = 0
      · have hL : Nat.toDigitsCore 10 (f2 + 1) n ds = Nat.digitChar (n % 10) :: ds := by
          simp only [Nat.toDigitsCore]
          rw [if_pos h0]
        have hR : Nat.toDigitsCore 10 (n + 1) n [] = [Nat.digitChar (n % 10)] := by
          simp only [Nat.toDigitsCore]
          rw [if_pos h0]
        rw [hL, hR]
        rfl
      · have hn0 : n ≠ 0 := fun h => h0 (by simp [h])
        have hlt : n / 10 < n := Nat.div_lt_self (Nat.pos_of_ne_zero hn0) (by omega)
        have hL : Nat.toDigitsCore 10 (f2 + 1) n ds =
            Nat.toDigitsCore 10 f2 (n / 10) (Nat.digitChar (n % 10) :: ds) := by
          simp only [Nat.toDigitsCore]
          rw [if_neg h0]
        have hR : Nat.toDigitsCore 10 (n + 1) n [] =
            Nat.toDigitsCore 10 n (n / 10) [Nat.digitChar (n % 10)] := by
          simp only [Nat.toDigitsCore]
          rw [if_neg h0]
        rw [hL, hR]
        rw [ih (n / 10) hlt f2 _ (by omega), ih (n / 10) hlt n _ hlt]
        rw [List.append_assoc]
        rfl

theorem parseDec_toDigitsCore (n : Nat) :
    parseDec (Nat.toDigitsCore 10 (n + 1) n []) = n := by
  induction n using Nat.strong_induction_on with
  | _ n ih =>
    by_cases h0 : n / 10 = 0
    · have hR : Nat.toDigitsCore 10 (n + 1) n [] = [Nat.digitChar (n % 10)] := by
        simp only [Nat.toDigitsCore]
        rw [if_pos h0]
      rw [hR]
      show 0 * 10 + ((Nat.digitChar (n % 10)).toNat - 48) = n
      rw [digitChar_toNat (n % 10) (Nat.mod_lt n (by omega))]
      omega
    · have hn0 : n ≠ 0 := fun h => h0 (by simp [h])
      have hlt : n / 10 < n := Nat.div_lt_self (Nat.pos_of_ne_zero hn0) (by omega)
      have hR : Nat.toDigitsCore 10 (n + 1) n [] =
          Nat.toDigitsCore 10 (n / 10 + 1) (n / 10) [] ++ [Nat.digitChar (n % 10)] := by
        have h1 : Nat.toDigitsCore 10 (n + 1) n [] =
            Nat.toDigitsCore 10 n (n / 10) [Nat.digitChar (n % 10)] := by
          simp only [Nat.toDigitsCore]
          rw [if_neg h0]
        rw [h1, toDigitsCore_append (n / 10) n _ hlt]
      rw [hR]
      unfold parseDec
      rw [List.foldl_append]
      show (parseDec (Nat.toDigitsCore 10 (n / 10 + 1) (n / 10) [])) * 10 +
        ((Nat.digitChar (n % 10)).toNat - 48) = n
      rw [ih (n / 10) hlt, digitChar_toNat (n % 10) (Nat.mod_lt n (by omega))]
      omega

theorem natRepr_injective (m n : Nat) (h : Nat.repr m = Nat.repr n) : m = n := by
  have hdata : Nat.toDigits 10 m = Nat.toDigits 10 n := by
    have := congrArg String.data h
    simpa [Nat.repr, List.asString] using this
  have hm := parseDec_toDigitsCore m
  have hn := parseDec_toDigitsCore n
  unfold Nat.toDigits at hdata
  rw [← hm, ← hn, hdata]

/-! ### Claim C9 -/

theorem onNotificationValue_id (dec : String → String → Option String)
    (dev : String) (t : Nat) (v : List Nat) (msg : ChatMessage)
    (h : onNotificationValue dec dev t v = some msg) :
    msg.id = Nat.repr t ∧ msg.timestamp = t := by
  unfold onNotificationValue at h
  rcases hd : utf8Decode v with _ | enc
  · simp [hd] at h
  · simp only [hd] at h
    rcases hdec : dec enc encryptionKey with _ | d
    · simp [hdec] at h
    · simp only [hdec, Option.some.injEq] at h
      rw [← h]
      exact ⟨rfl, rfl⟩

theorem handleSendMessage_sent_id (e : String → String → String) (w : Bool)
    (st : ServiceState) (d s : String) (t : Nat) (msg : ChatMessage)
    (h : (handleSendMessage e w st d s t).sentMessage = some msg) :
    msg.id = Nat.repr t ∧ msg.timestamp = t := by
  unfold handleSendMessage at h
  by_cases h0 : jsTrim s = ""
  · simp [h0] at h
  · rw [if_neg h0] at h
    by_cases hf : (checkContentModeration s).flagged
    · simp [hf] at h
    · simp only [hf, Bool.false_eq_true, if_false] at h
      by_cases ho : (sendMessage e w st d s).ok
      · simp only [ho, if_true] at h
        simp only [Option.some.injEq] at h
        rw [← h]
        exact ⟨rfl, rfl⟩
      · simp [ho] at h

/-- C9 (amended): message ids are derived from the creation clock time —
both the received-message constructor in the notification handler and
the sent-message constructor in the UI handler set
`id = Date.now().toString()` — so two messages created at distinct
clock times always have distinct ids; but two messages created at the
same clock time share the same id (shown by the counterexample), so
ids can collide within a session. -/
theorem message_ids_time_derived (m1 m2 : ChatMessage) (t1 t2 : Nat)
    (h1 : (∃ dec dev v, onNotificationValue dec dev t1 v = some m1) ∨
      (∃ e w st d s, (handleSendMessage e w st d s t1).sentMessage = some m1))
    (h2 : (∃ dec dev v, onNotificationValue dec dev t2 v = some m2) ∨
      (∃ e w st d s, (handleSendMessage e w st d s t2).sentMessage = some m2))
    (hne : t1 ≠ t2) :
    m1.id = Nat.repr t1 ∧ m2.id = Nat.repr t2 ∧ m1.id ≠ m2.id := by
  have hid1 : m1.id = Nat.repr t1 := by
    rcases h1 with ⟨dec, dev, v, h⟩ | ⟨e, w, st, d, s, h⟩
    · exact (onNotificationValue_id dec dev t1 v m1 h).1
    · exact (handleSendMessage_sent_id e w st d s t1 m1 h).1
  have hid2 : m2.id = Nat.repr t2 := by
    rcases h2 with ⟨dec, dev, v, h⟩ | ⟨e, w, st, d, s, h⟩
    · exact (onNotificationValue_id dec dev t2 v m2 h).1
    · exact (handleSendMessage_sent_id e w st d s t2 m2 h).1
  refine ⟨hid1, hid2, ?_⟩
  rw [hid1, hid2]
  intro heq
  exact hne (natRepr_injective t1 t2 heq)

/-- C9 counterexample: two distinct received messages created at the
same clock time (`Date.now() = 1000`) carry the same id `"1000"` — ids
do collide within a session when created in the same millisecond. -/
theorem message_id_collision_counterexample :
    onNotificationValue (fun c _ => some c) "A" 1000 (utf8Encode "x") =
      some { id := "1000", deviceId := "A", message := "x", timestamp := 1000,
             sent := false, encrypted := true } ∧
    onNotificationValue (fun c _ => some c) "A" 1000 (utf8Encode "y") =
      some { id := "1000", deviceId := "A", message := "y", timestamp := 1000,
             sent := false, encrypted := true } ∧
    ({ id := "1000", deviceId := "A", message := "x", timestamp := 1000,
       sent := false, encrypted := true } : ChatMessage) ≠
      { id := "1000", deviceId := "A", message := "y", timestamp := 1000,
        sent := false, encrypted := true } ∧
    ({ id := "1000", deviceId := "A", message := "x", timestamp := 1000,
       sent := false, encrypted := true } : ChatMessage).id =
      ({ id := "1000", deviceId := "A", message := "y", timestamp := 1000,
         sent := false, encrypted := true } : ChatMessage).id := by decide

/-- Witness for C9 (amended): a received message at time 1 and a sent
message at time 2 have the time-derived ids and they differ. -/
theorem message_ids_time_derived_witness :
    ({ id := "1", deviceId := "A", message := "x", timestamp := 1,
       sent := false, encrypted := true } : ChatMessage).id = Nat.repr 1 ∧
    ({ id := "2", deviceId := "B", message := "hello", timestamp := 2,
       sent := true, encrypted := true } : ChatMessage).id = Nat.repr 2 ∧
    ({ id := "1", deviceId := "A", message := "x", timestamp := 1,
       sent := false, encrypted := true } : ChatMessage).id ≠
      ({ id := "2", deviceId := "B", message := "hello", timestamp := 2,
         sent := true, encrypted := true } : ChatMessage).id :=
  message_ids_time_derived
    { id := "1", deviceId := "A", message := "x", timestamp := 1,
      sent := false, encrypted := true }
    { id := "2", deviceId := "B", message := "hello", timestamp := 2,
      sent := true, encrypted := true }
    1 2
    (Or.inl ⟨fun c _ => some c, "A", utf8Encode "x", by decide⟩)
    (Or.inr ⟨fun m _ => m, true, exSendState, "B", "hello", by decide⟩)
    (by decide)
